import Mathlib

/-!
Shallow embedding of the melinjo side-scrolling runner simulation.

The repository holds two near-duplicate variants of the same program:
src/game.js (embedded in namespace GameJs) and src/unnamed/part_000
(embedded in namespace PartZero). Both declare identical constants and an
identical data model, embedded once below. Numbers are modelled as exact
rationals; the unseeded random source is modelled as an explicit stream of
draws in [0, 1); the JS while loops of level generation are modelled with
an explicit fuel parameter, returning none when the fuel runs out, so that
termination is the provable statement that some finite fuel suffices.
Rendering and DOM plumbing carry no simulation state and are omitted; the
win-versus-loss framing read by drawGameOver is embedded as
gameOverMessage.
-/

/-- Canvas width in pixels; declared identically in both variants. -/
def CANVAS_WIDTH : ℚ := 800

/-- Canvas height in pixels. -/
def CANVAS_HEIGHT : ℚ := 400

/-- Height of the ground strip at the bottom of the canvas. -/
def GROUND_HEIGHT : ℚ := 50

/-- Per-frame downward acceleration added to the vertical velocity. -/
def GRAVITY : ℚ := 0.6

/-- Upward (negative) impulse applied by the initial jump. -/
def JUMP_FORCE : ℚ := -15

/-- Multiplier applied to JUMP_FORCE for mid-air (flying) impulses. -/
def FLYING_FORCE_MULTIPLIER : ℚ := 0.5

/-- Upper bound of the energy resource. -/
def ENERGY_MAX : ℚ := 100

/-- Energy debited by each accepted jump or flying impulse. -/
def ENERGY_JUMP_COST : ℚ := 20

/-- Energy added back each active frame while below the maximum. -/
def ENERGY_REFILL_RATE : ℚ := 0.3

/-- Game duration in seconds. -/
def GAME_DURATION : ℚ := 30

/-- World units by which obstacles and pickups scroll left each frame. -/
def SCROLL_SPEED : ℚ := 5

/-- Player record: the mutable fields of the player object of both
variants. -/
structure Player where
  x : ℚ
  y : ℚ
  width : ℚ
  height : ℚ
  velocityY : ℚ
  isJumping : Bool
  jumpCount : ℕ
deriving DecidableEq

/-- Obstacle record. The source creates obstacles without a passed field
(JS undefined, which is falsy), embedded here as passed initialised to
false. The type tag is the value of Math.floor(Math.random() * 2). -/
structure Obstacle where
  x : ℚ
  y : ℚ
  width : ℚ
  height : ℚ
  type : ℤ
  passed : Bool
deriving DecidableEq

/-- Melinjo pickup record. -/
structure Melinjo where
  x : ℚ
  y : ℚ
  width : ℚ
  height : ℚ
  collected : Bool
deriving DecidableEq

/-- The top-level mutable game variables of both variants, gathered into
one state record. -/
structure GameState where
  player : Player
  obstacles : List Obstacle
  melinjos : List Melinjo
  gameTime : ℚ
  gameActive : Bool
  lastTimestamp : ℚ
  energy : ℚ
deriving DecidableEq

/-- Random draws consumed by one iteration of the obstacle generation
loop: the Math.random() calls feeding the type, the width, the height and
the gap to the next obstacle. -/
structure ObstacleDraw where
  typeDraw : ℚ
  sizeDraw : ℚ
  heightDraw : ℚ
  gapDraw : ℚ
deriving DecidableEq

/-- Random draws consumed by one iteration of the melinjo generation loop:
the Math.random() calls feeding the altitude and the gap to the next
melinjo. -/
structure MelinjoDraw where
  altDraw : ℚ
  gapDraw : ℚ
deriving DecidableEq

/-- Predicate that a draw record holds values a real Math.random() call
can produce: each component lies in [0, 1). -/
def validObstacleDraw (d : ObstacleDraw) : Prop :=
  0 ≤ d.typeDraw ∧ d.typeDraw < 1 ∧ 0 ≤ d.sizeDraw ∧ d.sizeDraw < 1 ∧
    0 ≤ d.heightDraw ∧ d.heightDraw < 1 ∧ 0 ≤ d.gapDraw ∧ d.gapDraw < 1

instance (d : ObstacleDraw) : Decidable (validObstacleDraw d) := by
  unfold validObstacleDraw
  infer_instance

/-- Predicate that a melinjo draw record holds values in [0, 1). -/
def validMelinjoDraw (d : MelinjoDraw) : Prop :=
  0 ≤ d.altDraw ∧ d.altDraw < 1 ∧ 0 ≤ d.gapDraw ∧ d.gapDraw < 1

instance (d : MelinjoDraw) : Decidable (validMelinjoDraw d) := by
  unfold validMelinjoDraw
  infer_instance

/-- Approximate total level distance, SCROLL_SPEED * GAME_DURATION * 60,
computed identically by generateObstacles and generateMelinjos in both
variants. -/
def totalDistance : ℚ := SCROLL_SPEED * GAME_DURATION * 60

/-- Player object as initialised by window.onload in both variants. -/
def initPlayer : Player :=
  { x := 100
    y := CANVAS_HEIGHT - GROUND_HEIGHT - 40
    width := 50
    height := 40
    velocityY := 0
    isJumping := false
    jumpCount := 0 }

/-- Initial game state: gameTime 0, gameActive true, lastTimestamp 0,
energy at ENERGY_MAX, with the obstacle and melinjo lists produced by
generation. -/
def initState (obstacles : List Obstacle) (melinjos : List Melinjo) :
    GameState :=
  { player := initPlayer
    obstacles := obstacles
    melinjos := melinjos
    gameTime := 0
    gameActive := true
    lastTimestamp := 0
    energy := ENERGY_MAX }

namespace GameJs

/-- Local flying force of handleJump: JUMP_FORCE * FLYING_FORCE_MULTIPLIER
divided by the current jump count. -/
def flyingForce (jumpCount : ℕ) : ℚ :=
  JUMP_FORCE * FLYING_FORCE_MULTIPLIER / (jumpCount : ℚ)

/-- Embedding of handleJump of src/game.js: initial jump when not
jumping, flying impulse otherwise, each gated on energy at least
ENERGY_JUMP_COST and otherwise leaving the state untouched. -/
def handleJump (s : GameState) : GameState :=
  if !s.player.isJumping then
    if s.energy ≥ ENERGY_JUMP_COST then
      { s with
          player := { s.player with
              velocityY := JUMP_FORCE
              isJumping := true
              jumpCount := 1 }
          energy := s.energy - ENERGY_JUMP_COST }
    else s
  else
    if s.energy ≥ ENERGY_JUMP_COST then
      { s with
          player := { s.player with
              velocityY := flyingForce s.player.jumpCount
              jumpCount := s.player.jumpCount + 1 }
          energy := s.energy - ENERGY_JUMP_COST }
    else s

/-- Embedding of the keydown handler installed by setupControls of
src/game.js: a jump request reaches handleJump only while gameActive. The
touchstart handlers of src/game.js apply the same gate. -/
def jumpEvent (s : GameState) : GameState :=
  if s.gameActive then handleJump s else s

/-- Embedding of updatePlayer of src/game.js: apply gravity, integrate
the position, then clamp to the ground line. -/
def updatePlayer (p : Player) : Player :=
  let v := p.velocityY + GRAVITY
  let y := p.y + v
  let groundY := CANVAS_HEIGHT - GROUND_HEIGHT - p.height
  if y ≥ groundY then
    { p with y := groundY, velocityY := 0, isJumping := false, jumpCount := 0 }
  else
    { p with y := y, velocityY := v }

/-- Embedding of the while loop of generateObstacles of src/game.js, with
an explicit fuel bound; none means the fuel ran out before the loop
condition failed. -/
def genObstaclesAux (rand : ℕ → ObstacleDraw) :
    ℕ → ℚ → ℕ → Option (List Obstacle)
  | _, position, 0 =>
    if position < totalDistance + 800 then none else some []
  | i, position, fuel + 1 =>
    if position < totalDistance + 800 then
      let d := rand i
      let ty : ℤ := ⌊d.typeDraw * 2⌋
      let width := if ty = 0 then 30 + d.sizeDraw * 20 else 60 + d.sizeDraw * 40
      let height := if ty = 0 then 20 + d.heightDraw * 30 else 20
      let o : Obstacle :=
        { x := position
          y := CANVAS_HEIGHT - GROUND_HEIGHT - height
          width := width
          height := height
          type := ty
          passed := false }
      (genObstaclesAux rand (i + 1) (position + (300 + d.gapDraw * 300)) fuel).map
        (fun l => o :: l)
    else some []

/-- Embedding of generateObstacles of src/game.js: start at position 800
and place obstacles while the position is below totalDistance + 800. -/
def generateObstacles (rand : ℕ → ObstacleDraw) (fuel : ℕ) :
    Option (List Obstacle) :=
  genObstaclesAux rand 0 800 fuel

/-- Embedding of the while loop of generateMelinjos of src/game.js, with
an explicit fuel bound. -/
def genMelinjosAux (rand : ℕ → MelinjoDraw) :
    ℕ → ℚ → ℕ → Option (List Melinjo)
  | _, position, 0 =>
    if position < totalDistance + 800 then none else some []
  | i, position, fuel + 1 =>
    if position < totalDistance + 800 then
      let d := rand i
      let height := 100 + d.altDraw * 150
      let m : Melinjo :=
        { x := position
          y := CANVAS_HEIGHT - GROUND_HEIGHT - height
          width := 20
          height := 20
          collected := false }
      (genMelinjosAux rand (i + 1) (position + (200 + d.gapDraw * 400)) fuel).map
        (fun l => m :: l)
    else some []

/-- Embedding of generateMelinjos of src/game.js. -/
def generateMelinjos (rand : ℕ → MelinjoDraw) (fuel : ℕ) :
    Option (List Melinjo) :=
  genMelinjosAux rand 0 800 fuel

/-- Embedding of updateObstacles of src/game.js: every obstacle scrolls
left by SCROLL_SPEED. -/
def updateObstacles (l : List Obstacle) : List Obstacle :=
  l.map fun o => { o with x := o.x - SCROLL_SPEED }

/-- Embedding of updateMelinjos of src/game.js. -/
def updateMelinjos (l : List Melinjo) : List Melinjo :=
  l.map fun m => { m with x := m.x - SCROLL_SPEED }

/-- Embedding of updateEnergy of src/game.js: refill by
ENERGY_REFILL_RATE while below ENERGY_MAX, clamping at the maximum. The
energy bar DOM write has no simulation effect and is omitted. -/
def updateEnergy (energy : ℚ) : ℚ :=
  if energy < ENERGY_MAX then
    let e := energy + ENERGY_REFILL_RATE
    if e > ENERGY_MAX then ENERGY_MAX else e
  else energy

/-- Embedding of the obstacle loop of checkCollisions of src/game.js.
Returns the obstacle list after the loop together with true when a
collision fired (the JS early return). On a collision the colliding
obstacle and the rest of the list are left as they were. -/
def checkObstacles (p : Player) : List Obstacle → List Obstacle × Bool
  | [] => ([], false)
  | o :: rest =>
    if o.passed = false ∧ p.x < o.x + o.width ∧ p.x + p.width > o.x ∧
        p.y < o.y + o.height ∧ p.y + p.height > o.y then
      (o :: rest, true)
    else
      let o1 := if o.x + o.width < p.x ∧ o.passed = false then
        { o with passed := true } else o
      let r := checkObstacles p rest
      (o1 :: r.1, r.2)

/-- Embedding of the melinjo loop of checkCollisions of src/game.js,
threading the energy value through the collected pickups. -/
def checkMelinjos (p : Player) (energy : ℚ) : List Melinjo → List Melinjo × ℚ
  | [] => ([], energy)
  | m :: rest =>
    if m.collected = false ∧ p.x < m.x + m.width ∧ p.x + p.width > m.x ∧
        p.y < m.y + m.height ∧ p.y + p.height > m.y then
      let e1 := energy + 30
      let e2 := if e1 > ENERGY_MAX then ENERGY_MAX else e1
      let r := checkMelinjos p e2 rest
      ({ m with collected := true } :: r.1, r.2)
    else
      let r := checkMelinjos p energy rest
      (m :: r.1, r.2)

/-- Embedding of checkCollisions of src/game.js: the obstacle loop with
its early return on a hit, then the melinjo loop, then the fall-off
check. -/
def checkCollisions (s : GameState) : GameState :=
  let r := checkObstacles s.player s.obstacles
  if r.2 then { s with obstacles := r.1, gameActive := false }
  else
    let rm := checkMelinjos s.player s.energy s.melinjos
    let active1 := if s.player.y > CANVAS_HEIGHT then false else s.gameActive
    { s with
        obstacles := r.1
        melinjos := rm.1
        energy := rm.2
        gameActive := active1 }

/-- Clock phase of gameLoop of src/game.js: advance gameTime by the delta
time in seconds and clear gameActive when the duration is reached. -/
def timePhase (s : GameState) (deltaTime : ℚ) : GameState :=
  let s1 := { s with gameTime := s.gameTime + deltaTime / 1000 }
  if s1.gameTime ≥ GAME_DURATION then { s1 with gameActive := false } else s1

/-- Update phase of gameLoop of src/game.js: the calls to updatePlayer,
updateObstacles, updateMelinjos, updateEnergy and checkCollisions, in
source order. -/
def updatePhase (s : GameState) : GameState :=
  let s1 := { s with player := updatePlayer s.player }
  let s2 := { s1 with obstacles := updateObstacles s1.obstacles }
  let s3 := { s2 with melinjos := updateMelinjos s2.melinjos }
  let s4 := { s3 with energy := updateEnergy s3.energy }
  checkCollisions s4

/-- Simulation part of one gameLoop frame of src/game.js: compute the
delta time from lastTimestamp, store the new timestamp, and when
gameActive run the clock phase followed by the update phase. Drawing calls
read the state and are omitted. -/
def frameStep (s : GameState) (timestamp : ℚ) : GameState :=
  let deltaTime := timestamp - s.lastTimestamp
  let s1 := { s with lastTimestamp := timestamp }
  if s1.gameActive then updatePhase (timePhase s1 deltaTime) else s1

/-- Message drawn by drawGameOver of src/game.js once the game has ended:
the win framing exactly when gameTime reached GAME_DURATION. -/
def gameOverMessage (s : GameState) : String :=
  if s.gameTime ≥ GAME_DURATION then "Level Complete!" else "Game Over"

end GameJs

namespace PartZero

/-- Embedding of the keydown handler installed by setupControls of
src/unnamed/part_000: while gameActive, an initial jump when not jumping
and a flying impulse otherwise, each gated on energy at least
ENERGY_JUMP_COST. This variant inlines the jump logic in the handler
instead of a separate handleJump function. -/
def keydownSpace (s : GameState) : GameState :=
  if s.gameActive then
    if !s.player.isJumping then
      if s.energy ≥ ENERGY_JUMP_COST then
        { s with
            player := { s.player with
                velocityY := JUMP_FORCE
                isJumping := true
                jumpCount := 1 }
            energy := s.energy - ENERGY_JUMP_COST }
      else s
    else
      if s.energy ≥ ENERGY_JUMP_COST then
        { s with
            player := { s.player with
                velocityY := JUMP_FORCE * FLYING_FORCE_MULTIPLIER /
                  (s.player.jumpCount : ℚ)
                jumpCount := s.player.jumpCount + 1 }
            energy := s.energy - ENERGY_JUMP_COST }
      else s
  else s

/-- Embedding of updatePlayer of src/unnamed/part_000. -/
def updatePlayer (p : Player) : Player :=
  let v := p.velocityY + GRAVITY
  let y := p.y + v
  let groundY := CANVAS_HEIGHT - GROUND_HEIGHT - p.height
  if y ≥ groundY then
    { p with y := groundY, velocityY := 0, isJumping := false, jumpCount := 0 }
  else
    { p with y := y, velocityY := v }

/-- Embedding of the while loop of generateObstacles of
src/unnamed/part_000. -/
def genObstaclesAux (rand : ℕ → ObstacleDraw) :
    ℕ → ℚ → ℕ → Option (List Obstacle)
  | _, position, 0 =>
    if position < totalDistance + 800 then none else some []
  | i, position, fuel + 1 =>
    if position < totalDistance + 800 then
      let d := rand i
      let ty : ℤ := ⌊d.typeDraw * 2⌋
      let width := if ty = 0 then 30 + d.sizeDraw * 20 else 60 + d.sizeDraw * 40
      let height := if ty = 0 then 20 + d.heightDraw * 30 else 20
      let o : Obstacle :=
        { x := position
          y := CANVAS_HEIGHT - GROUND_HEIGHT - height
          width := width
          height := height
          type := ty
          passed := false }
      (genObstaclesAux rand (i + 1) (position + (300 + d.gapDraw * 300)) fuel).map
        (fun l => o :: l)
    else some []

/-- Embedding of generateObstacles of src/unnamed/part_000. -/
def generateObstacles (rand : ℕ → ObstacleDraw) (fuel : ℕ) :
    Option (List Obstacle) :=
  genObstaclesAux rand 0 800 fuel

/-- Embedding of the while loop of generateMelinjos of
src/unnamed/part_000. -/
def genMelinjosAux (rand : ℕ → MelinjoDraw) :
    ℕ → ℚ → ℕ → Option (List Melinjo)
  | _, position, 0 =>
    if position < totalDistance + 800 then none else some []
  | i, position, fuel + 1 =>
    if position < totalDistance + 800 then
      let d := rand i
      let height := 100 + d.altDraw * 150
      let m : Melinjo :=
        { x := position
          y := CANVAS_HEIGHT - GROUND_HEIGHT - height
          width := 20
          height := 20
          collected := false }
      (genMelinjosAux rand (i + 1) (position + (200 + d.gapDraw * 400)) fuel).map
        (fun l => m :: l)
    else some []

/-- Embedding of generateMelinjos of src/unnamed/part_000. -/
def generateMelinjos (rand : ℕ → MelinjoDraw) (fuel : ℕ) :
    Option (List Melinjo) :=
  genMelinjosAux rand 0 800 fuel

/-- Embedding of updateObstacles of src/unnamed/part_000. -/
def updateObstacles (l : List Obstacle) : List Obstacle :=
  l.map fun o => { o with x := o.x - SCROLL_SPEED }

/-- Embedding of updateMelinjos of src/unnamed/part_000. -/
def updateMelinjos (l : List Melinjo) : List Melinjo :=
  l.map fun m => { m with x := m.x - SCROLL_SPEED }

/-- Embedding of updateEnergy of src/unnamed/part_000. -/
def updateEnergy (energy : ℚ) : ℚ :=
  if energy < ENERGY_MAX then
    let e := energy + ENERGY_REFILL_RATE
    if e > ENERGY_MAX then ENERGY_MAX else e
  else energy

/-- Embedding of the obstacle loop of checkCollisions of
src/unnamed/part_000. -/
def checkObstacles (p : Player) : List Obstacle → List Obstacle × Bool
  | [] => ([], false)
  | o :: rest =>
    if o.passed = false ∧ p.x < o.x + o.width ∧ p.x + p.width > o.x ∧
        p.y < o.y + o.height ∧ p.y + p.height > o.y then
      (o :: rest, true)
    else
      let o1 := if o.x + o.width < p.x ∧ o.passed = false then
        { o with passed := true } else o
      let r := checkObstacles p rest
      (o1 :: r.1, r.2)

/-- Embedding of the melinjo loop of checkCollisions of
src/unnamed/part_000. -/
def checkMelinjos (p : Player) (energy : ℚ) : List Melinjo → List Melinjo × ℚ
  | [] => ([], energy)
  | m :: rest =>
    if m.collected = false ∧ p.x < m.x + m.width ∧ p.x + p.width > m.x ∧
        p.y < m.y + m.height ∧ p.y + p.height > m.y then
      let e1 := energy + 30
      let e2 := if e1 > ENERGY_MAX then ENERGY_MAX else e1
      let r := checkMelinjos p e2 rest
      ({ m with collected := true } :: r.1, r.2)
    else
      let r := checkMelinjos p energy rest
      (m :: r.1, r.2)

/-- Embedding of checkCollisions of src/unnamed/part_000. -/
def checkCollisions (s : GameState) : GameState :=
  let r := checkObstacles s.player s.obstacles
  if r.2 then { s with obstacles := r.1, gameActive := false }
  else
    let rm := checkMelinjos s.player s.energy s.melinjos
    let active1 := if s.player.y > CANVAS_HEIGHT then false else s.gameActive
    { s with
        obstacles := r.1
        melinjos := rm.1
        energy := rm.2
        gameActive := active1 }

/-- Clock phase of gameLoop of src/unnamed/part_000. -/
def timePhase (s : GameState) (deltaTime : ℚ) : GameState :=
  let s1 := { s with gameTime := s.gameTime + deltaTime / 1000 }
  if s1.gameTime ≥ GAME_DURATION then { s1 with gameActive := false } else s1

/-- Update phase of gameLoop of src/unnamed/part_000. -/
def updatePhase (s : GameState) : GameState :=
  let s1 := { s with player := updatePlayer s.player }
  let s2 := { s1 with obstacles := updateObstacles s1.obstacles }
  let s3 := { s2 with melinjos := updateMelinjos s2.melinjos }
  let s4 := { s3 with energy := updateEnergy s3.energy }
  checkCollisions s4

/-- Simulation part of one gameLoop frame of src/unnamed/part_000. -/
def frameStep (s : GameState) (timestamp : ℚ) : GameState :=
  let deltaTime := timestamp - s.lastTimestamp
  let s1 := { s with lastTimestamp := timestamp }
  if s1.gameActive then updatePhase (timePhase s1 deltaTime) else s1

/-- Message drawn by drawGameOver of src/unnamed/part_000. -/
def gameOverMessage (s : GameState) : String :=
  if s.gameTime ≥ GAME_DURATION then "Level Complete!" else "Game Over"

end PartZero

/-- Invariant tying the flying divisor to the airborne flag: whenever the
player is airborne the jump count is at least one. -/
def jumpCountInv (p : Player) : Prop :=
  p.isJumping = true → 1 ≤ p.jumpCount

instance (p : Player) : Decidable (jumpCountInv p) := by
  unfold jumpCountInv
  infer_instance

/-- Equation of handleJump when the request is rejected for lack of
energy: the whole state is untouched. -/
lemma handleJump_reject (s : GameState) (h : s.energy < ENERGY_JUMP_COST) :
    GameJs.handleJump s = s := by
  have hn : ¬ s.energy ≥ ENERGY_JUMP_COST := not_le_of_lt h
  unfold GameJs.handleJump
  split <;> simp [hn]

/-- Equation of handleJump for an accepted initial jump. -/
lemma handleJump_ground (s : GameState) (hj : s.player.isJumping = false)
    (h : ENERGY_JUMP_COST ≤ s.energy) :
    GameJs.handleJump s =
      { s with
          player := { s.player with
              velocityY := JUMP_FORCE
              isJumping := true
              jumpCount := 1 }
          energy := s.energy - ENERGY_JUMP_COST } := by
  unfold GameJs.handleJump
  rw [hj]
  simp [h]

/-- Equation of handleJump for an accepted flying impulse. -/
lemma handleJump_flying (s : GameState) (hj : s.player.isJumping = true)
    (h : ENERGY_JUMP_COST ≤ s.energy) :
    GameJs.handleJump s =
      { s with
          player := { s.player with
              velocityY := GameJs.flyingForce s.player.jumpCount
              jumpCount := s.player.jumpCount + 1 }
          energy := s.energy - ENERGY_JUMP_COST } := by
  unfold GameJs.handleJump
  rw [hj]
  simp [h]

/-- C4: after the per-frame physics update the player y position never
exceeds the ground line CANVAS_HEIGHT - GROUND_HEIGHT - height, and
whenever the integrated position reaches or passes the ground line the
update snaps y to the ground line, zeroes velocityY, clears isJumping and
resets jumpCount to 0. -/
theorem C4_ground_clamp (p : Player) :
    (GameJs.updatePlayer p).y ≤
      CANVAS_HEIGHT - GROUND_HEIGHT - (GameJs.updatePlayer p).height ∧
    (CANVAS_HEIGHT - GROUND_HEIGHT - p.height ≤ p.y + (p.velocityY + GRAVITY) →
      GameJs.updatePlayer p =
        { p with
            y := CANVAS_HEIGHT - GROUND_HEIGHT - p.height
            velocityY := 0
            isJumping := false
            jumpCount := 0 }) := by
  simp only [GameJs.updatePlayer, ge_iff_le]
  split
  · exact ⟨le_refl _, fun _ => rfl⟩
  · next h =>
    push_neg at h
    exact ⟨le_of_lt h, fun hc => absurd hc (not_le_of_lt h)⟩

/-- C4 witness: the clamp conjunct evaluated on a concrete falling player
that reaches the ground line this frame. -/
theorem C4_ground_clamp_witness :
    (GameJs.updatePlayer { initPlayer with y := 309, velocityY := 1 }).y ≤
      CANVAS_HEIGHT - GROUND_HEIGHT -
        (GameJs.updatePlayer { initPlayer with y := 309, velocityY := 1 }).height ∧
    GameJs.updatePlayer { initPlayer with y := 309, velocityY := 1 } =
      { initPlayer with
          y := CANVAS_HEIGHT - GROUND_HEIGHT - 40
          velocityY := 0
          isJumping := false
          jumpCount := 0 } :=
  ⟨(C4_ground_clamp _).1, (C4_ground_clamp _).2 (by norm_num [initPlayer,
    CANVAS_HEIGHT, GROUND_HEIGHT, GRAVITY])⟩

/-- C5: a jump request with energy below ENERGY_JUMP_COST leaves the state
completely unchanged; with energy at least ENERGY_JUMP_COST it changes the
state, setting the velocity, updating isJumping and jumpCount, and
debiting energy by exactly ENERGY_JUMP_COST. -/
theorem C5_jump_gating (s : GameState) :
    (s.energy < ENERGY_JUMP_COST → GameJs.handleJump s = s) ∧
    (ENERGY_JUMP_COST ≤ s.energy →
      GameJs.handleJump s ≠ s ∧
      (GameJs.handleJump s).energy = s.energy - ENERGY_JUMP_COST ∧
      (GameJs.handleJump s).player.isJumping = true ∧
      (if s.player.isJumping then
        (GameJs.handleJump s).player.velocityY =
            GameJs.flyingForce s.player.jumpCount ∧
          (GameJs.handleJump s).player.jumpCount = s.player.jumpCount + 1
      else
        (GameJs.handleJump s).player.velocityY = JUMP_FORCE ∧
          (GameJs.handleJump s).player.jumpCount = 1)) := by
  constructor
  · exact fun h => handleJump_reject s h
  · intro h
    have hcost : (ENERGY_JUMP_COST : ℚ) ≠ 0 := by norm_num [ENERGY_JUMP_COST]
    cases hj : s.player.isJumping with
    | false =>
      rw [handleJump_ground s hj h]
      refine ⟨?_, rfl, rfl, ?_⟩
      · intro hc
        have h2 := congrArg GameState.energy hc
        simp only at h2
        exact hcost (sub_eq_self.mp h2)
      · simp [hj]
    | true =>
      rw [handleJump_flying s hj h]
      refine ⟨?_, rfl, hj, ?_⟩
      · intro hc
        have h2 := congrArg GameState.energy hc
        simp only at h2
        exact hcost (sub_eq_self.mp h2)
      · simp [hj]

/-- Player projection of checkCollisions: the collision pass never writes
the player. -/
lemma checkCollisions_player (s : GameState) :
    (GameJs.checkCollisions s).player = s.player := by
  simp only [GameJs.checkCollisions]
  split <;> rfl

/-- Player projection of the update phase: the player field after the
phase is exactly updatePlayer of the old player. -/
lemma updatePhase_player (s : GameState) :
    (GameJs.updatePhase s).player = GameJs.updatePlayer s.player := by
  unfold GameJs.updatePhase
  rw [checkCollisions_player]

/-- Player projection of the clock phase. -/
lemma timePhase_player (s : GameState) (dt : ℚ) :
    (GameJs.timePhase s dt).player = s.player := by
  simp only [GameJs.timePhase]
  split <;> rfl

/-- Player projection of one frame: either untouched (game over) or one
updatePlayer step. -/
lemma frameStep_player (s : GameState) (ts : ℚ) :
    (GameJs.frameStep s ts).player = s.player ∨
    (GameJs.frameStep s ts).player = GameJs.updatePlayer s.player := by
  simp only [GameJs.frameStep]
  split
  · right
    rw [updatePhase_player, timePhase_player]
  · left
    rfl

/-- Concrete airborne state used by witnesses: two impulses already used,
full energy. -/
def airborneState : GameState :=
  { initState [] [] with
      player := { initPlayer with isJumping := true, jumpCount := 2 } }

/-- C5 witness: the rejecting branch at a drained state and the accepting
branch at the initial state. -/
theorem C5_jump_gating_witness :
    ((initState [] []).energy < ENERGY_JUMP_COST →
      GameJs.handleJump (initState [] []) = initState [] []) ∧
    (ENERGY_JUMP_COST ≤ (initState [] []).energy ∧
      GameJs.handleJump (initState [] []) ≠ initState [] []) ∧
    ({ initState [] [] with energy := 5 }.energy < ENERGY_JUMP_COST ∧
      GameJs.handleJump { initState [] [] with energy := 5 } =
        { initState [] [] with energy := 5 }) :=
  ⟨(C5_jump_gating _).1,
   ⟨by norm_num [initState, ENERGY_JUMP_COST, ENERGY_MAX],
    ((C5_jump_gating _).2 (by
      norm_num [initState, ENERGY_JUMP_COST, ENERGY_MAX])).1⟩,
   ⟨by norm_num [initState, ENERGY_JUMP_COST],
    (C5_jump_gating _).1 (by norm_num [initState, ENERGY_JUMP_COST])⟩⟩

/-- C6: an accepted flying impulse sets the velocity to JUMP_FORCE *
FLYING_FORCE_MULTIPLIER / jumpCount evaluated at the pre-increment
jumpCount, and the magnitudes of successive flying impulses strictly
decrease as the jump count increases. -/
theorem C6_flying_decay (s : GameState) (hj : s.player.isJumping = true)
    (h : ENERGY_JUMP_COST ≤ s.energy) :
    (GameJs.handleJump s).player.velocityY =
      JUMP_FORCE * FLYING_FORCE_MULTIPLIER / (s.player.jumpCount : ℚ) ∧
    (GameJs.handleJump s).player.jumpCount = s.player.jumpCount + 1 ∧
    ∀ j : ℕ, 1 ≤ j →
      |GameJs.flyingForce (j + 1)| < |GameJs.flyingForce j| := by
  refine ⟨?_, ?_, ?_⟩
  · rw [handleJump_flying s hj h]
    rfl
  · rw [handleJump_flying s hj h]
  · intro j hje
    have hj0 : (0 : ℚ) < (j : ℚ) := by exact_mod_cast hje
    have e1 : ∀ k : ℕ, GameJs.flyingForce k = -(15 / 2 / (k : ℚ)) := by
      intro k
      unfold GameJs.flyingForce JUMP_FORCE FLYING_FORCE_MULTIPLIER
      ring
    rw [e1, e1, abs_neg, abs_neg, abs_of_nonneg (by positivity),
      abs_of_nonneg (by positivity)]
    push_cast
    exact div_lt_div_of_pos_left (by norm_num) hj0 (by linarith)

/-- C6 witness: the decay conclusion at a concrete airborne state with
jump count 2, exhibiting the harmonic chain 7.5, 7.5 / 2, 7.5 / 3. -/
theorem C6_flying_decay_witness :
    airborneState.player.isJumping = true ∧
    ENERGY_JUMP_COST ≤ airborneState.energy ∧
    (GameJs.handleJump airborneState).player.velocityY =
      JUMP_FORCE * FLYING_FORCE_MULTIPLIER /
        (airborneState.player.jumpCount : ℚ) ∧
    |GameJs.flyingForce 2| < |GameJs.flyingForce 1| :=
  ⟨rfl, by norm_num [airborneState, initState, ENERGY_JUMP_COST, ENERGY_MAX],
    (C6_flying_decay airborneState rfl (by
      norm_num [airborneState, initState, ENERGY_JUMP_COST, ENERGY_MAX])).1,
    (C6_flying_decay airborneState rfl (by
      norm_num [airborneState, initState, ENERGY_JUMP_COST, ENERGY_MAX])).2.2 1
      (le_refl 1)⟩

/-- C7: whenever the player is airborne the jump count is at least one,
so the flying division never divides by zero; the invariant holds at the
initial player and is preserved by handleJump, by updatePlayer and by the
whole frame step. -/
theorem C7_divisor_safe (s : GameState) (h : jumpCountInv s.player) (ts : ℚ) :
    jumpCountInv initPlayer ∧
    jumpCountInv (GameJs.handleJump s).player ∧
    jumpCountInv (GameJs.updatePlayer s.player) ∧
    jumpCountInv (GameJs.frameStep s ts).player ∧
    (s.player.isJumping = true → (0 : ℚ) < (s.player.jumpCount : ℚ)) := by
  have hup : jumpCountInv (GameJs.updatePlayer s.player) := by
    simp only [GameJs.updatePlayer]
    split
    · intro hc
      simp at hc
    · exact h
  have hhj : jumpCountInv (GameJs.handleJump s).player := by
    rcases lt_or_le s.energy ENERGY_JUMP_COST with hlt | hle
    · rw [handleJump_reject s hlt]
      exact h
    · cases hj : s.player.isJumping with
      | false =>
        rw [handleJump_ground s hj hle]
        intro _
        exact le_refl 1
      | true =>
        rw [handleJump_flying s hj hle]
        intro _
        exact Nat.le_add_left 1 _
  have hfs : jumpCountInv (GameJs.frameStep s ts).player := by
    rcases frameStep_player s ts with he | he <;> rw [he]
    · exact h
    · exact hup
  refine ⟨?_, hhj, hup, hfs, ?_⟩
  · intro hc
    simp [initPlayer] at hc
  · intro hj
    exact_mod_cast Nat.cast_pos.mpr (h hj)

/-- C7 witness: the invariant conjunction evaluated at the concrete
airborne state, where the divisor is the positive jump count 2. -/
theorem C7_divisor_safe_witness :
    jumpCountInv airborneState.player ∧
    jumpCountInv (GameJs.handleJump airborneState).player ∧
    (0 : ℚ) < (airborneState.player.jumpCount : ℚ) :=
  ⟨by decide,
    (C7_divisor_safe airborneState (by decide) 0).2.1,
    (C7_divisor_safe airborneState (by decide) 0).2.2.2.2 rfl⟩

/-- Bounds preservation of the per-frame refill: updateEnergy keeps
energy within [0, ENERGY_MAX]. -/
lemma updateEnergy_bounds (e : ℚ) (h0 : 0 ≤ e) (h1 : e ≤ ENERGY_MAX) :
    0 ≤ GameJs.updateEnergy e ∧ GameJs.updateEnergy e ≤ ENERGY_MAX := by
  simp only [GameJs.updateEnergy]
  split
  · split
    · constructor
      · norm_num [ENERGY_MAX]
      · exact le_refl _
    · next h2 =>
      push_neg at h2
      have hr : (0 : ℚ) ≤ ENERGY_REFILL_RATE := by norm_num [ENERGY_REFILL_RATE]
      exact ⟨by linarith, h2⟩
  · exact ⟨h0, h1⟩

/-- Bounds preservation of the pickup loop: the energy threaded through
checkMelinjos stays within [0, ENERGY_MAX]. -/
lemma checkMelinjos_energy_bounds (p : Player) :
    ∀ (l : List Melinjo) (e : ℚ), 0 ≤ e → e ≤ ENERGY_MAX →
      0 ≤ (GameJs.checkMelinjos p e l).2 ∧
        (GameJs.checkMelinjos p e l).2 ≤ ENERGY_MAX := by
  intro l
  induction l with
  | nil =>
    intro e h0 h1
    exact ⟨h0, h1⟩
  | cons m rest ih =>
    intro e h0 h1
    simp only [GameJs.checkMelinjos]
    split
    · refine ih _ ?_ ?_
      · split
        · norm_num [ENERGY_MAX]
        · linarith
      · split
        · exact le_refl _
        · next h2 =>
          push_neg at h2
          exact h2
    · exact ih e h0 h1

/-- Bounds preservation of the collision pass: its only energy writes come
from pickup collection, which clamps at the maximum. -/
lemma checkCollisions_energy_bounds (s : GameState) (h0 : 0 ≤ s.energy)
    (h1 : s.energy ≤ ENERGY_MAX) :
    0 ≤ (GameJs.checkCollisions s).energy ∧
      (GameJs.checkCollisions s).energy ≤ ENERGY_MAX := by
  simp only [GameJs.checkCollisions]
  split
  · exact ⟨h0, h1⟩
  · exact checkMelinjos_energy_bounds s.player s.melinjos s.energy h0 h1

/-- Bounds preservation of a jump request: the debit happens only when the
cost is affordable. -/
lemma handleJump_energy_bounds (s : GameState) (h0 : 0 ≤ s.energy)
    (h1 : s.energy ≤ ENERGY_MAX) :
    0 ≤ (GameJs.handleJump s).energy ∧
      (GameJs.handleJump s).energy ≤ ENERGY_MAX := by
  rcases lt_or_le s.energy ENERGY_JUMP_COST with hlt | hle
  · rw [handleJump_reject s hlt]
    exact ⟨h0, h1⟩
  · have hc : (0 : ℚ) ≤ ENERGY_JUMP_COST := by norm_num [ENERGY_JUMP_COST]
    cases hj : s.player.isJumping with
    | false =>
      rw [handleJump_ground s hj hle]
      constructor
      · show 0 ≤ s.energy - ENERGY_JUMP_COST
        linarith
      · show s.energy - ENERGY_JUMP_COST ≤ ENERGY_MAX
        linarith
    | true =>
      rw [handleJump_flying s hj hle]
      constructor
      · show 0 ≤ s.energy - ENERGY_JUMP_COST
        linarith
      · show s.energy - ENERGY_JUMP_COST ≤ ENERGY_MAX
        linarith

/-- C1: the energy invariant 0 ≤ energy ≤ ENERGY_MAX holds initially and
is preserved by every operation that touches energy: the per-frame refill
of updateEnergy, a jump or flying impulse of handleJump (which debits only
when the cost is affordable), and pickup collection inside
checkCollisions (which adds 30 and clamps at the maximum). -/
theorem C1_energy_invariant (s : GameState) (h0 : 0 ≤ s.energy)
    (h1 : s.energy ≤ ENERGY_MAX) :
    (0 ≤ (initState s.obstacles s.melinjos).energy ∧
      (initState s.obstacles s.melinjos).energy ≤ ENERGY_MAX) ∧
    (0 ≤ GameJs.updateEnergy s.energy ∧
      GameJs.updateEnergy s.energy ≤ ENERGY_MAX) ∧
    (0 ≤ (GameJs.handleJump s).energy ∧
      (GameJs.handleJump s).energy ≤ ENERGY_MAX) ∧
    (0 ≤ (GameJs.checkCollisions s).energy ∧
      (GameJs.checkCollisions s).energy ≤ ENERGY_MAX) :=
  ⟨⟨by norm_num [initState, ENERGY_MAX], by norm_num [initState, ENERGY_MAX]⟩,
    updateEnergy_bounds s.energy h0 h1,
    handleJump_energy_bounds s h0 h1,
    checkCollisions_energy_bounds s h0 h1⟩

/-- C1 witness: the invariant conjunction evaluated at a mid-game state
with energy 50 and one collectable pickup overlapping the player. -/
theorem C1_energy_invariant_witness :
    (0 : ℚ) ≤ 50 ∧ (50 : ℚ) ≤ ENERGY_MAX ∧
    (0 ≤ GameJs.updateEnergy (50 : ℚ) ∧
      GameJs.updateEnergy (50 : ℚ) ≤ ENERGY_MAX) ∧
    (0 ≤ (GameJs.handleJump { initState [] [] with energy := 50 }).energy ∧
      (GameJs.handleJump { initState [] [] with energy := 50 }).energy ≤
        ENERGY_MAX) :=
  ⟨by norm_num, by norm_num [ENERGY_MAX],
    (C1_energy_invariant { initState [] [] with energy := 50 }
      (by norm_num) (by norm_num [ENERGY_MAX])).2.1,
    (C1_energy_invariant { initState [] [] with energy := 50 }
      (by norm_num) (by norm_num [ENERGY_MAX])).2.2.1⟩

/-- gameTime projection of the collision pass: collisions never write the
clock. -/
lemma checkCollisions_gameTime (s : GameState) :
    (GameJs.checkCollisions s).gameTime = s.gameTime := by
  simp only [GameJs.checkCollisions]
  split <;> rfl

/-- gameTime projection of the update phase. -/
lemma updatePhase_gameTime (s : GameState) :
    (GameJs.updatePhase s).gameTime = s.gameTime := by
  simp only [GameJs.updatePhase]
  rw [checkCollisions_gameTime]

/-- The collision pass never resurrects an ended game. -/
lemma checkCollisions_stays_over (s : GameState) (h : s.gameActive = false) :
    (GameJs.checkCollisions s).gameActive = false := by
  simp only [GameJs.checkCollisions]
  split
  · rfl
  · simp [h]

/-- The update phase never resurrects an ended game. -/
lemma updatePhase_stays_over (s : GameState) (h : s.gameActive = false) :
    (GameJs.updatePhase s).gameActive = false := by
  simp only [GameJs.updatePhase]
  exact checkCollisions_stays_over _ h

/-- gameTime equation of the clock phase. -/
lemma timePhase_gameTime (s : GameState) (dt : ℚ) :
    (GameJs.timePhase s dt).gameTime = s.gameTime + dt / 1000 := by
  simp only [GameJs.timePhase]
  split <;> rfl

/-- The clock phase ends the game as soon as the advanced clock reaches
GAME_DURATION. -/
lemma timePhase_over (s : GameState) (dt : ℚ)
    (h : GAME_DURATION ≤ s.gameTime + dt / 1000) :
    (GameJs.timePhase s dt).gameActive = false := by
  simp only [GameJs.timePhase]
  rw [if_pos]
  exact h

/-- Frame decomposition while the game is active: the frame is the clock
phase followed by the update phase, with the timestamp stored first. -/
lemma frameStep_active (s : GameState) (ts : ℚ) (h : s.gameActive = true) :
    GameJs.frameStep s ts =
      GameJs.updatePhase
        (GameJs.timePhase { s with lastTimestamp := ts }
          (ts - s.lastTimestamp)) := by
  simp only [GameJs.frameStep]
  rw [if_pos]
  exact h

/-- C3: when the elapsed time reaches GAME_DURATION during a frame, the
frame ends the game and the end screen carries the win framing regardless
of any obstacle collision or fall-off in the same frame, because the
win-versus-loss framing depends only on whether gameTime reached
GAME_DURATION. -/
theorem C3_time_up_wins (s : GameState) (ts : ℚ) (hactive : s.gameActive = true)
    (htime : GAME_DURATION ≤ s.gameTime + (ts - s.lastTimestamp) / 1000) :
    (GameJs.frameStep s ts).gameActive = false ∧
    (GameJs.frameStep s ts).gameTime =
      s.gameTime + (ts - s.lastTimestamp) / 1000 ∧
    GameJs.gameOverMessage (GameJs.frameStep s ts) = "Level Complete!" ∧
    (∀ s1 s2 : GameState, s1.gameTime = s2.gameTime →
      GameJs.gameOverMessage s1 = GameJs.gameOverMessage s2) := by
  have htime2 : (GameJs.frameStep s ts).gameTime =
      s.gameTime + (ts - s.lastTimestamp) / 1000 := by
    rw [frameStep_active s ts hactive, updatePhase_gameTime, timePhase_gameTime]
  have hover : (GameJs.frameStep s ts).gameActive = false := by
    rw [frameStep_active s ts hactive]
    exact updatePhase_stays_over _ (timePhase_over _ _ htime)
  refine ⟨hover, htime2, ?_, ?_⟩
  · simp only [GameJs.gameOverMessage, htime2]
    rw [if_pos]
    exact htime
  · intro s1 s2 he
    simp only [GameJs.gameOverMessage, he]

/-- Obstacle whose bounding box coincides with the initial player box,
used to exhibit a simultaneous collision condition. -/
def overlapObstacle : Obstacle :=
  { x := 100
    y := CANVAS_HEIGHT - GROUND_HEIGHT - 40
    width := 50
    height := 40
    type := 0
    passed := false }

/-- C3 witness: a frame in which the clock reaches the duration while an
obstacle box fully overlaps the player box; the end state still carries
the win framing. -/
theorem C3_time_up_wins_witness :
    (initState [overlapObstacle] []).gameActive = true ∧
    GAME_DURATION ≤ (initState [overlapObstacle] []).gameTime +
      ((31000 : ℚ) - (initState [overlapObstacle] []).lastTimestamp) / 1000 ∧
    GameJs.gameOverMessage
      (GameJs.frameStep (initState [overlapObstacle] []) 31000) =
      "Level Complete!" :=
  ⟨rfl,
    by norm_num [initState, GAME_DURATION],
    (C3_time_up_wins _ 31000 rfl
      (by norm_num [initState, GAME_DURATION])).2.2.1⟩

/-- C10: with lastTimestamp initialised to 0, the first frame computes a
delta time equal to the raw host timestamp, so gameTime jumps from 0 to
timestamp / 1000 in one step, and any first timestamp of at least 30000 ms
ends the game with the win framing on the first frame, before any input. -/
theorem C10_first_frame (obs : List Obstacle) (mels : List Melinjo) (ts : ℚ)
    (h : 30000 ≤ ts) :
    ts - (initState obs mels).lastTimestamp = ts ∧
    (GameJs.frameStep (initState obs mels) ts).gameTime = ts / 1000 ∧
    (GameJs.frameStep (initState obs mels) ts).gameActive = false ∧
    GameJs.gameOverMessage (GameJs.frameStep (initState obs mels) ts) =
      "Level Complete!" := by
  have hdelta : ts - (initState obs mels).lastTimestamp = ts := by
    simp [initState]
  have htime : GAME_DURATION ≤ (initState obs mels).gameTime +
      (ts - (initState obs mels).lastTimestamp) / 1000 := by
    simp only [initState]
    norm_num [GAME_DURATION]
    linarith
  have htime2 : (GameJs.frameStep (initState obs mels) ts).gameTime =
      ts / 1000 := by
    rw [frameStep_active _ ts rfl, updatePhase_gameTime, timePhase_gameTime]
    simp [initState]
  have hover : (GameJs.frameStep (initState obs mels) ts).gameActive = false := by
    rw [frameStep_active _ ts rfl]
    exact updatePhase_stays_over _ (timePhase_over _ _ htime)
  refine ⟨hdelta, htime2, hover, ?_⟩
  simp only [GameJs.gameOverMessage, htime2]
  rw [if_pos]
  show GAME_DURATION ≤ ts / 1000
  norm_num [GAME_DURATION]
  linarith

/-- C10 witness: the first frame at the exact threshold timestamp 30000. -/
theorem C10_first_frame_witness :
    (30000 : ℚ) ≤ 30000 ∧
    (GameJs.frameStep (initState [] []) 30000).gameTime = 30000 / 1000 ∧
    (GameJs.frameStep (initState [] []) 30000).gameActive = false ∧
    GameJs.gameOverMessage (GameJs.frameStep (initState [] []) 30000) =
      "Level Complete!" :=
  ⟨le_refl _,
    (C10_first_frame [] [] 30000 (le_refl _)).2.1,
    (C10_first_frame [] [] 30000 (le_refl _)).2.2.1,
    (C10_first_frame [] [] 30000 (le_refl _)).2.2.2⟩

/-- Obstacle far to the right of the player, used to observe scrolling in
the time-up frame. -/
def farObstacle : Obstacle :=
  { x := 1000
    y := CANVAS_HEIGHT - GROUND_HEIGHT - 30
    width := 40
    height := 30
    type := 0
    passed := false }

/-- C2 counterexample: the claim also freezes the remainder of the very
frame in which the Active to Ended transition occurs, but the code does
not: at this concrete state the clock phase of the frame ends the game,
the frame then still runs the update phase, and the obstacle list of that
same frame mutates (the obstacle scrolls from x = 1000 to x = 995). -/
theorem C2_counterexample :
    (GameJs.timePhase { (initState [farObstacle] []) with lastTimestamp := 30000 }
      ((30000 : ℚ) - (initState [farObstacle] []).lastTimestamp)).gameActive =
      false ∧
    GameJs.frameStep (initState [farObstacle] []) 30000 =
      GameJs.updatePhase
        (GameJs.timePhase { (initState [farObstacle] []) with
            lastTimestamp := 30000 }
          ((30000 : ℚ) - (initState [farObstacle] []).lastTimestamp)) ∧
    (GameJs.frameStep (initState [farObstacle] []) 30000).obstacles ≠
      (initState [farObstacle] []).obstacles ∧
    (GameJs.frameStep (initState [farObstacle] []) 30000).gameActive = false := by
  have hstep := frameStep_active (initState [farObstacle] []) 30000 rfl
  refine ⟨?_, hstep, ?_, ?_⟩
  · norm_num [GameJs.timePhase, initState, GAME_DURATION]
  · rw [hstep]
    norm_num [GameJs.updatePhase, GameJs.timePhase, GameJs.checkCollisions,
      GameJs.checkObstacles, GameJs.checkMelinjos, GameJs.updatePlayer,
      GameJs.updateObstacles, GameJs.updateMelinjos, GameJs.updateEnergy,
      initState, initPlayer, farObstacle, GAME_DURATION, CANVAS_HEIGHT,
      GROUND_HEIGHT, GRAVITY, SCROLL_SPEED, ENERGY_MAX, Obstacle.mk.injEq]
  · rw [hstep]
    norm_num [GameJs.updatePhase, GameJs.timePhase, GameJs.checkCollisions,
      GameJs.checkObstacles, GameJs.checkMelinjos, GameJs.updatePlayer,
      GameJs.updateObstacles, GameJs.updateMelinjos, GameJs.updateEnergy,
      initState, initPlayer, farObstacle, GAME_DURATION, CANVAS_HEIGHT,
      GROUND_HEIGHT, GRAVITY, SCROLL_SPEED, ENERGY_MAX]

/-- C2 amended: once gameActive is false at the start of a frame, the
frame mutates no simulation field (only lastTimestamp is stored) and jump
events are ignored; the frame in which the transition itself fires is
covered by the counterexample, not by this freeze. -/
theorem C2_frozen_after_end (s : GameState) (h : s.gameActive = false)
    (ts : ℚ) :
    (GameJs.frameStep s ts).player = s.player ∧
    (GameJs.frameStep s ts).obstacles = s.obstacles ∧
    (GameJs.frameStep s ts).melinjos = s.melinjos ∧
    (GameJs.frameStep s ts).energy = s.energy ∧
    (GameJs.frameStep s ts).gameTime = s.gameTime ∧
    (GameJs.frameStep s ts).gameActive = false ∧
    (GameJs.frameStep s ts).lastTimestamp = ts ∧
    GameJs.jumpEvent s = s := by
  have hstep : GameJs.frameStep s ts = { s with lastTimestamp := ts } := by
    simp only [GameJs.frameStep]
    rw [if_neg]
    simp [h]
  rw [hstep]
  refine ⟨rfl, rfl, rfl, rfl, rfl, h, rfl, ?_⟩
  simp [GameJs.jumpEvent, h]

/-- C2 witness: the freeze evaluated at a concrete ended state. -/
theorem C2_frozen_after_end_witness :
    ({ initState [farObstacle] [] with gameActive := false } :
      GameState).gameActive = false ∧
    (GameJs.frameStep { initState [farObstacle] [] with gameActive := false }
      31000).obstacles =
      ({ initState [farObstacle] [] with gameActive := false } :
        GameState).obstacles ∧
    GameJs.jumpEvent { initState [farObstacle] [] with gameActive := false } =
      { initState [farObstacle] [] with gameActive := false } :=
  ⟨rfl,
    (C2_frozen_after_end _ rfl 31000).2.1,
    (C2_frozen_after_end _ rfl 31000).2.2.2.2.2.2.2⟩

/-- Termination of the obstacle generation loop: with draws in [0, 1)
every iteration advances the position by at least 300, so any fuel
covering the remaining span divided by 300 suffices. -/
lemma genObstaclesAux_total (rand : ℕ → ObstacleDraw)
    (hr : ∀ n, validObstacleDraw (rand n)) :
    ∀ (fuel i : ℕ) (pos : ℚ), totalDistance + 800 - pos ≤ 300 * fuel →
      ∃ l, GameJs.genObstaclesAux rand i pos fuel = some l := by
  intro fuel
  induction fuel with
  | zero =>
    intro i pos h
    refine ⟨[], ?_⟩
    simp only [GameJs.genObstaclesAux]
    rw [if_neg]
    push_cast at h
    linarith
  | succ fuel ih =>
    intro i pos h
    simp only [GameJs.genObstaclesAux]
    split
    · next hp =>
      have hg0 : 0 ≤ (rand i).gapDraw := (hr i).2.2.2.2.2.2.1
      have hg : 0 ≤ (rand i).gapDraw * 300 :=
        mul_nonneg hg0 (by norm_num)
      have hrem : totalDistance + 800 -
          (pos + (300 + (rand i).gapDraw * 300)) ≤ 300 * fuel := by
        push_cast at h ⊢
        linarith
      obtain ⟨l, hl⟩ := ih (i + 1) (pos + (300 + (rand i).gapDraw * 300)) hrem
      rw [hl]
      exact ⟨_, rfl⟩
    · exact ⟨[], rfl⟩

/-- Placement bounds of the obstacle generation loop: with draws in [0, 1)
every generated obstacle has x at least the starting position and strictly
below totalDistance + 800. -/
lemma genObstaclesAux_bounds (rand : ℕ → ObstacleDraw)
    (hr : ∀ n, validObstacleDraw (rand n)) :
    ∀ (fuel i : ℕ) (pos : ℚ) (l : List Obstacle),
      GameJs.genObstaclesAux rand i pos fuel = some l →
      ∀ o ∈ l, pos ≤ o.x ∧ o.x < totalDistance + 800 := by
  intro fuel
  induction fuel with
  | zero =>
    intro i pos l hl o ho
    simp only [GameJs.genObstaclesAux] at hl
    split at hl
    · exact Option.noConfusion hl
    · obtain rfl := Option.some.inj hl
      exact absurd ho (List.not_mem_nil o)
  | succ fuel ih =>
    intro i pos l hl o ho
    simp only [GameJs.genObstaclesAux] at hl
    split at hl
    · next hp =>
      rcases hrec : GameJs.genObstaclesAux rand (i + 1)
          (pos + (300 + (rand i).gapDraw * 300)) fuel with _ | l2
      · rw [hrec] at hl
        exact Option.noConfusion hl
      · rw [hrec] at hl
        simp only [Option.map_some'] at hl
        obtain rfl := Option.some.inj hl
        have hg0 : 0 ≤ (rand i).gapDraw := (hr i).2.2.2.2.2.2.1
        have hg : 0 ≤ (rand i).gapDraw * 300 :=
          mul_nonneg hg0 (by norm_num)
        rcases List.mem_cons.mp ho with rfl | ho2
        · exact ⟨le_refl _, hp⟩
        · have hb := ih (i + 1) (pos + (300 + (rand i).gapDraw * 300)) l2
            hrec o ho2
          exact ⟨by linarith [hb.1], hb.2⟩
    · obtain rfl := Option.some.inj hl
      exact absurd ho (List.not_mem_nil o)

/-- Termination of the melinjo generation loop: every iteration advances
the position by at least 200. -/
lemma genMelinjosAux_total (rand : ℕ → MelinjoDraw)
    (hm : ∀ n, validMelinjoDraw (rand n)) :
    ∀ (fuel i : ℕ) (pos : ℚ), totalDistance + 800 - pos ≤ 200 * fuel →
      ∃ l, GameJs.genMelinjosAux rand i pos fuel = some l := by
  intro fuel
  induction fuel with
  | zero =>
    intro i pos h
    refine ⟨[], ?_⟩
    simp only [GameJs.genMelinjosAux]
    rw [if_neg]
    push_cast at h
    linarith
  | succ fuel ih =>
    intro i pos h
    simp only [GameJs.genMelinjosAux]
    split
    · next hp =>
      have hg0 : 0 ≤ (rand i).gapDraw := (hm i).2.2.1
      have hg : 0 ≤ (rand i).gapDraw * 400 :=
        mul_nonneg hg0 (by norm_num)
      have hrem : totalDistance + 800 -
          (pos + (200 + (rand i).gapDraw * 400)) ≤ 200 * fuel := by
        push_cast at h ⊢
        linarith
      obtain ⟨l, hl⟩ := ih (i + 1) (pos + (200 + (rand i).gapDraw * 400)) hrem
      rw [hl]
      exact ⟨_, rfl⟩
    · exact ⟨[], rfl⟩

/-- Placement bounds of the melinjo generation loop. -/
lemma genMelinjosAux_bounds (rand : ℕ → MelinjoDraw)
    (hm : ∀ n, validMelinjoDraw (rand n)) :
    ∀ (fuel i : ℕ) (pos : ℚ) (l : List Melinjo),
      GameJs.genMelinjosAux rand i pos fuel = some l →
      ∀ m ∈ l, pos ≤ m.x ∧ m.x < totalDistance + 800 := by
  intro fuel
  induction fuel with
  | zero =>
    intro i pos l hl m hmem
    simp only [GameJs.genMelinjosAux] at hl
    split at hl
    · exact Option.noConfusion hl
    · obtain rfl := Option.some.inj hl
      exact absurd hmem (List.not_mem_nil m)
  | succ fuel ih =>
    intro i pos l hl m hmem
    simp only [GameJs.genMelinjosAux] at hl
    split at hl
    · next hp =>
      rcases hrec : GameJs.genMelinjosAux rand (i + 1)
          (pos + (200 + (rand i).gapDraw * 400)) fuel with _ | l2
      · rw [hrec] at hl
        exact Option.noConfusion hl
      · rw [hrec] at hl
        simp only [Option.map_some'] at hl
        obtain rfl := Option.some.inj hl
        have hg0 : 0 ≤ (rand i).gapDraw := (hm i).2.2.1
        have hg : 0 ≤ (rand i).gapDraw * 400 :=
          mul_nonneg hg0 (by norm_num)
        rcases List.mem_cons.mp hmem with rfl | hm2
        · exact ⟨le_refl _, hp⟩
        · have hb := ih (i + 1) (pos + (200 + (rand i).gapDraw * 400)) l2
            hrec m hm2
          exact ⟨by linarith [hb.1], hb.2⟩
    · obtain rfl := Option.some.inj hl
      exact absurd hmem (List.not_mem_nil m)

/-- C8: with duration 30 s and scroll speed 5 the generation span is
totalDistance + 800 = 5 * 30 * 60 + 800 = 9800 world units; each loop
iteration advances the placement position by at least 300 (obstacles) or
200 (pickups), both strictly positive, so generation terminates (30 and 45
iterations of fuel suffice) and every generated obstacle and pickup has
initial x within [800, 9800 + 800]. -/
theorem C8_generation (rand : ℕ → ObstacleDraw) (mrand : ℕ → MelinjoDraw)
    (hr : ∀ n, validObstacleDraw (rand n))
    (hm : ∀ n, validMelinjoDraw (mrand n)) :
    totalDistance + 800 = 9800 ∧
    (∀ d, validObstacleDraw d → 300 ≤ 300 + d.gapDraw * 300) ∧
    (∀ d, validMelinjoDraw d → 200 ≤ 200 + d.gapDraw * 400) ∧
    (∃ l, GameJs.generateObstacles rand 30 = some l ∧
      ∀ o ∈ l, 800 ≤ o.x ∧ o.x ≤ 9800 + 800) ∧
    (∃ l, GameJs.generateMelinjos mrand 45 = some l ∧
      ∀ m ∈ l, 800 ≤ m.x ∧ m.x ≤ 9800 + 800) := by
  have hspan : totalDistance + 800 = 9800 := by
    norm_num [totalDistance, SCROLL_SPEED, GAME_DURATION]
  refine ⟨hspan, ?_, ?_, ?_, ?_⟩
  · intro d hd
    have := hd.2.2.2.2.2.2.1
    nlinarith
  · intro d hd
    have := hd.2.2.1
    nlinarith
  · obtain ⟨l, hl⟩ := genObstaclesAux_total rand hr 30 0 800 (by
      rw [hspan]
      norm_num)
    refine ⟨l, hl, ?_⟩
    intro o ho
    have hb := genObstaclesAux_bounds rand hr 30 0 800 l hl o ho
    rw [hspan] at hb
    exact ⟨hb.1, by linarith [hb.2]⟩
  · obtain ⟨l, hl⟩ := genMelinjosAux_total mrand hm 45 0 800 (by
      rw [hspan]
      norm_num)
    refine ⟨l, hl, ?_⟩
    intro m hmem
    have hb := genMelinjosAux_bounds mrand hm 45 0 800 l hl m hmem
    rw [hspan] at hb
    exact ⟨hb.1, by linarith [hb.2]⟩

/-- Zero obstacle draw record, a valid Math.random() outcome. -/
def zeroObstacleDraw : ObstacleDraw :=
  { typeDraw := 0, sizeDraw := 0, heightDraw := 0, gapDraw := 0 }

/-- Zero melinjo draw record. -/
def zeroMelinjoDraw : MelinjoDraw :=
  { altDraw := 0, gapDraw := 0 }

/-- C8 witness: the generation conclusions at the constant zero draw
stream, whose components all lie in [0, 1). -/
theorem C8_generation_witness :
    validObstacleDraw zeroObstacleDraw ∧
    validMelinjoDraw zeroMelinjoDraw ∧
    (∃ l, GameJs.generateObstacles (fun _ => zeroObstacleDraw) 30 = some l ∧
      ∀ o ∈ l, 800 ≤ o.x ∧ o.x ≤ 9800 + 800) ∧
    (∃ l, GameJs.generateMelinjos (fun _ => zeroMelinjoDraw) 45 = some l ∧
      ∀ m ∈ l, 800 ≤ m.x ∧ m.x ≤ 9800 + 800) :=
  by
  have h1 : validObstacleDraw zeroObstacleDraw := by decide
  have h2 : validMelinjoDraw zeroMelinjoDraw := by decide
  have hmain := C8_generation (fun _ => zeroObstacleDraw)
    (fun _ => zeroMelinjoDraw) (fun _ => h1) (fun _ => h2)
  exact ⟨h1, h2, hmain.2.2.2.1, hmain.2.2.2.2⟩

/-- The gated jump handling of the two variants agrees: game.js gates
handleJump behind gameActive in its handlers, part_000 inlines the same
logic in its keydown handler. -/
lemma jump_variants_eq : GameJs.jumpEvent = PartZero.keydownSpace := rfl

/-- The physics updates of the two variants agree. -/
lemma updatePlayer_variants_eq : GameJs.updatePlayer = PartZero.updatePlayer :=
  rfl

/-- The obstacle scrolling of the two variants agrees. -/
lemma updateObstacles_variants_eq :
    GameJs.updateObstacles = PartZero.updateObstacles := rfl

/-- The pickup scrolling of the two variants agrees. -/
lemma updateMelinjos_variants_eq :
    GameJs.updateMelinjos = PartZero.updateMelinjos := rfl

/-- The energy refills of the two variants agree. -/
lemma updateEnergy_variants_eq : GameJs.updateEnergy = PartZero.updateEnergy :=
  rfl

/-- The clock phases of the two variants agree. -/
lemma timePhase_variants_eq : GameJs.timePhase = PartZero.timePhase := rfl

/-- The end-screen framings of the two variants agree. -/
lemma gameOverMessage_variants_eq :
    GameJs.gameOverMessage = PartZero.gameOverMessage := rfl

/-- The obstacle generation loops of the two variants agree on every
draw stream, position and fuel. -/
lemma genObstaclesAux_variants_eq (rand : ℕ → ObstacleDraw) :
    ∀ (fuel i : ℕ) (pos : ℚ),
      GameJs.genObstaclesAux rand i pos fuel =
        PartZero.genObstaclesAux rand i pos fuel := by
  intro fuel
  induction fuel with
  | zero =>
    intro i pos
    rfl
  | succ fuel ih =>
    intro i pos
    simp only [GameJs.genObstaclesAux, PartZero.genObstaclesAux, ih]

/-- The melinjo generation loops of the two variants agree. -/
lemma genMelinjosAux_variants_eq (rand : ℕ → MelinjoDraw) :
    ∀ (fuel i : ℕ) (pos : ℚ),
      GameJs.genMelinjosAux rand i pos fuel =
        PartZero.genMelinjosAux rand i pos fuel := by
  intro fuel
  induction fuel with
  | zero =>
    intro i pos
    rfl
  | succ fuel ih =>
    intro i pos
    simp only [GameJs.genMelinjosAux, PartZero.genMelinjosAux, ih]

/-- generateObstacles agrees between the variants. -/
lemma generateObstacles_variants_eq :
    GameJs.generateObstacles = PartZero.generateObstacles := by
  funext rand fuel
  exact genObstaclesAux_variants_eq rand fuel 0 800

/-- generateMelinjos agrees between the variants. -/
lemma generateMelinjos_variants_eq :
    GameJs.generateMelinjos = PartZero.generateMelinjos := by
  funext rand fuel
  exact genMelinjosAux_variants_eq rand fuel 0 800

/-- The obstacle collision loops of the two variants agree. -/
lemma checkObstacles_variants_eq :
    GameJs.checkObstacles = PartZero.checkObstacles := by
  funext p l
  induction l with
  | nil => rfl
  | cons o rest ih =>
    simp only [GameJs.checkObstacles, PartZero.checkObstacles, ih]

/-- The pickup collision loops of the two variants agree. -/
lemma checkMelinjos_variants_eq :
    GameJs.checkMelinjos = PartZero.checkMelinjos := by
  funext p e l
  induction l generalizing e with
  | nil => rfl
  | cons m rest ih =>
    simp only [GameJs.checkMelinjos, PartZero.checkMelinjos, ih]

/-- The collision passes of the two variants agree. -/
lemma checkCollisions_variants_eq :
    GameJs.checkCollisions = PartZero.checkCollisions := by
  funext s
  simp only [GameJs.checkCollisions, PartZero.checkCollisions,
    checkObstacles_variants_eq, checkMelinjos_variants_eq]

/-- The update phases of the two variants agree. -/
lemma updatePhase_variants_eq : GameJs.updatePhase = PartZero.updatePhase := by
  funext s
  simp only [GameJs.updatePhase, PartZero.updatePhase,
    checkCollisions_variants_eq, updatePlayer_variants_eq,
    updateObstacles_variants_eq, updateMelinjos_variants_eq,
    updateEnergy_variants_eq]

/-- The frame steps of the two variants agree. -/
lemma frameStep_variants_eq : GameJs.frameStep = PartZero.frameStep := by
  funext s ts
  simp only [GameJs.frameStep, PartZero.frameStep, updatePhase_variants_eq,
    timePhase_variants_eq]

/-- C9: the two program variants implement the same simulation: for every
state, jump-request event and frame input, the jump handling, physics
update, level generation, scrolling, energy update, collision and
end-state logic, the whole frame step and the end-screen framing of
src/game.js and src/unnamed/part_000 coincide as functions. -/
theorem C9_variants_equivalent :
    GameJs.jumpEvent = PartZero.keydownSpace ∧
    GameJs.updatePlayer = PartZero.updatePlayer ∧
    GameJs.generateObstacles = PartZero.generateObstacles ∧
    GameJs.generateMelinjos = PartZero.generateMelinjos ∧
    GameJs.updateObstacles = PartZero.updateObstacles ∧
    GameJs.updateMelinjos = PartZero.updateMelinjos ∧
    GameJs.updateEnergy = PartZero.updateEnergy ∧
    GameJs.checkCollisions = PartZero.checkCollisions ∧
    GameJs.frameStep = PartZero.frameStep ∧
    GameJs.gameOverMessage = PartZero.gameOverMessage :=
  ⟨jump_variants_eq, updatePlayer_variants_eq, generateObstacles_variants_eq,
    generateMelinjos_variants_eq, updateObstacles_variants_eq,
    updateMelinjos_variants_eq, updateEnergy_variants_eq,
    checkCollisions_variants_eq, frameStep_variants_eq,
    gameOverMessage_variants_eq⟩
